import Mathlib

/-!
Verification of the listener/serve orchestration layer of nf-hydra
(`cmd/server/handler.go`): middleware-pipeline assembly, listener
resolution (unix socket / TCP / ziti overlay tunnel), serve-mode
dispatch, the DSN startup guard, and the serve coordinator.
-/

namespace NfHydra

/-- The two HTTP interface identities, `config.AdminInterface` and
`config.PublicInterface`. -/
inductive ServeInterface where
  | admin
  | public
deriving DecidableEq, Repr

/-- Modelled from the spec: `config.ServeInterface.Key` (the `driver/config`
package is not part of the orchestration source file). Each interface owns a
configuration namespace (`serve.admin` / `serve.public`); `Key` appends a
sub-key, so the prefix key is `serve.admin.prefix` exactly for the Admin
interface — matching the statement of the spec that the overlay-tunnel
transport is restricted to the admin interface only. -/
def ServeInterface.Key : ServeInterface → String → String
  | ServeInterface.admin, k => "serve.admin." ++ k
  | ServeInterface.public, k => "serve.public." ++ k

/-- Filesystem-socket permission specification (`configx.UnixPermission`),
opaque to the orchestration layer. -/
abbrev UnixPermission := Nat

/-- Embedding of `networkx.AddressIsUnixSocket`: an address denotes a
filesystem (unix) socket exactly when it carries the `unix:` scheme
(`strings.HasPrefix(address, "unix:")`), stated on the character list so that
it evaluates by kernel reduction. -/
def AddressIsUnixSocket (address : String) : Bool :=
  ("unix:").data.isPrefixOf address.data

/-- Models `strings.TrimPrefix(addr, "unix:")` under the `unix:` guard:
drops the five scheme characters. -/
def stripUnixScheme (address : String) : String :=
  String.mk (address.data.drop 5)

/-- A resolved listener, tagged by its transport. `ziti` records the
connection-establishment timeout (minutes) and the connection bound that
`serve` passes in `ziti.ListenOptions`. -/
inductive Listener where
  | unixSocket (path : String) (permission : Option UnixPermission)
  | tcp (address : String)
  | ziti (service : String) (connectTimeoutMinutes : Nat) (maxConnections : Nat)
deriving DecidableEq, Repr

def Listener.isUnixSocket : Listener → Bool
  | Listener.unixSocket _ _ => true
  | _ => false

def Listener.isTcp : Listener → Bool
  | Listener.tcp _ => true
  | _ => false

def Listener.isZiti : Listener → Bool
  | Listener.ziti _ _ _ => true
  | _ => false

/-- Embedding of `networkx.MakeListener`: a `unix:` address yields a
filesystem-socket listener on the path (scheme stripped) with the supplied
permission; any other address binds TCP. Bind-level failures of the operating
system are abstracted away — only the transport selection matters here. -/
def MakeListener (address : String) (permission : Option UnixPermission) : Listener :=
  if AddressIsUnixSocket address then
    Listener.unixSocket (stripUnixScheme address) permission
  else
    Listener.tcp address

/-- Errors surfaced by listener resolution. -/
inductive ResolveError where
  | configurationError (msg : String)
deriving DecidableEq, Repr

/-- The error message `serve` returns when the tunnel-service environment
variable is unset (handler.go line 368). -/
def zitiServiceMissingMsg : String :=
  "Zitified flag set, but ZITI_SERVICE environment variable not found"

/-- Embedding of the listener-resolution block of `serve`
(handler.go 352–390, the ZITIFICATION block). `zitiService` is the value of
the `ZITI_SERVICE` environment variable (`os.Getenv` yields `""` when unset).
The zitified branch is taken when the flag is set and the interface key
equals `serve.admin.prefix`; it fails before creating any listener when the
service name is empty, and otherwise asks the ziti `ListenerFactory` for a
listener with a 5-minute connect timeout and at most 3 connections.
Otherwise `networkx.MakeListener` is used. -/
def resolveListener (zitified : Bool) (zitiService : String) (iface : ServeInterface)
    (address : String) (permission : Option UnixPermission) :
    Except ResolveError Listener :=
  if zitified && (iface.Key ("prefix") == "serve.admin.prefix") then
    if zitiService == "" then
      Except.error (ResolveError.configurationError zitiServiceMissingMsg)
    else
      Except.ok (Listener.ziti zitiService 5 3)
  else
    Except.ok (MakeListener address permission)

/-! ## Middleware pipeline assembly -/

/-- One stage of a negroni pipeline. The stages are the middlewares the
orchestration layer installs: the request logger (`reqlog`, with its excluded
paths), the Prometheus manager, the metrics/analytics collector
(`metricsx.New`), the reject-insecure-request security gate, opaque
service-locator-supplied middlewares (identified by name), the contextualized
CORS middleware value, and the terminal router. -/
inductive Middleware where
  | accessLog (name : String) (excludedPaths : List String)
  | prometheusManager
  | metricsCollector
  | rejectInsecureRequests
  | serviceLocator (name : String)
  | corsContextual (iface : ServeInterface)
  | router
deriving DecidableEq, Repr

/-- Embedding of `corsx.ContextualizedMiddleware`: constructs the per-request
CORS middleware value closing over the live configuration of `iface`. It is a
pure constructor — it does not touch any pipeline it is not attached to. -/
def ContextualizedMiddleware (iface : ServeInterface) : Middleware :=
  Middleware.corsContextual iface

/-- A negroni pipeline: the ordered list of installed stages. `Use` appends,
and negroni executes stages in installation order, so the head of the list is
the outermost wrapper. -/
abbrev Pipeline := List Middleware

/-- Embedding of `EnhanceMiddleware` (handler.go 70–85). `n` is the negroni
built by `setup`, `sl` the names of the service-locator middlewares in
registration order. The reject-insecure-request gate is appended when the
address is not a unix socket, then the service-locator middlewares, then the
terminal router. The contextualized CORS middleware is constructed but its
value is discarded, exactly as in the source (the bare call on
handler.go 80–82 neither receives `n` nor has its result installed). -/
def EnhanceMiddleware (sl : List String) (n : Pipeline) (address : String)
    (routerHandler : Middleware) (enableCORS : Bool) (iface : ServeInterface) :
    Pipeline :=
  let n1 := if !AddressIsUnixSocket address then n ++ [Middleware.rejectInsecureRequests] else n
  let n2 := n1 ++ sl.map Middleware.serviceLocator
  let n3 := n2 ++ [routerHandler]
  let _corsmw := ContextualizedMiddleware iface
  n3

/-- Path constant `healthx.AliveCheckPath`. -/
def healthAliveCheckPath : String := "/health/alive"

/-- Path constant `healthx.ReadyCheckPath`. -/
def healthReadyCheckPath : String := "/health/ready"

/-- The admin request logger built by `setup` (handler.go 221–226): excludes
the admin-prefixed health paths when `DisableHealthAccessLog(admin)` is set. -/
def setupAdminLogger (disableHealthAccessLog : Bool) : Middleware :=
  Middleware.accessLog ("hydra/admin")
    (if disableHealthAccessLog then
      ["/admin" ++ healthAliveCheckPath, "/admin" ++ healthReadyCheckPath]
    else [])

/-- The public request logger built by `setup` (handler.go 231–237). -/
def setupPublicLogger (disableHealthAccessLog : Bool) : Middleware :=
  Middleware.accessLog ("hydra/public")
    (if disableHealthAccessLog then [healthAliveCheckPath, healthReadyCheckPath] else [])

/-- The admin negroni as `setup` returns it (handler.go 215–318): request
logger, Prometheus manager, metrics collector, installed in that order. -/
def setupAdminMw (disableHealthAccessLog : Bool) : Pipeline :=
  [setupAdminLogger disableHealthAccessLog, Middleware.prometheusManager,
    Middleware.metricsCollector]

/-- The public negroni as `setup` returns it. -/
def setupPublicMw (disableHealthAccessLog : Bool) : Pipeline :=
  [setupPublicLogger disableHealthAccessLog, Middleware.prometheusManager,
    Middleware.metricsCollector]

/-- The admin pipeline as the run functions build it:
`EnhanceMiddleware(ctx, sl, d, adminmw, ListenOn(admin), admin.Router, true, admin)`. -/
def composedAdminPipeline (disableHealthAccessLog : Bool) (sl : List String)
    (address : String) : Pipeline :=
  EnhanceMiddleware sl (setupAdminMw disableHealthAccessLog) address
    Middleware.router true ServeInterface.admin

/-- The public pipeline as the run functions build it (`enableCORS = false`). -/
def composedPublicPipeline (disableHealthAccessLog : Bool) (sl : List String)
    (address : String) : Pipeline :=
  EnhanceMiddleware sl (setupPublicMw disableHealthAccessLog) address
    Middleware.router false ServeInterface.public

/-- Decides whether a pipeline stage is the contextualized CORS middleware. -/
def isCorsStage : Middleware → Bool
  | Middleware.corsContextual _ => true
  | _ => false

/-- Decides whether a pipeline stage is the reject-insecure-request
security gate. -/
def isGateStage : Middleware → Bool
  | Middleware.rejectInsecureRequests => true
  | _ => false

/-! ## Serve-mode dispatch and the serve task -/

/-- The three serve modes of `serve` (handler.go 392–404): `rawServe` is
`srv.Serve(listener)` taken in the unix-socket branch, `tlsServe` is
`srv.ServeTLS(listener, "", "")`, `plainServe` is the final
`srv.Serve(listener)`. -/
inductive HttpServeMode where
  | rawServe
  | tlsServe
  | plainServe
deriving DecidableEq, Repr

/-- Outcome of the dispatch: the serve mode chosen and whether the
"HTTPS is disabled" warning was logged on the way. -/
structure DispatchResult where
  mode : HttpServeMode
  httpsDisabledWarning : Bool
deriving DecidableEq, Repr

/-- Embedding of the dispatch at the end of `serve` (handler.go 392–404):
unix-socket addresses are served raw; otherwise a constructed TLS context
selects `ServeTLS`; otherwise plain `Serve`, logging the upstream-HTTPS
warning exactly when the interface is the public one. -/
def serveDispatch (address : String) (tlsConfigured : Bool)
    (iface : ServeInterface) : DispatchResult :=
  if AddressIsUnixSocket address then
    { mode := HttpServeMode.rawServe, httpsDisabledWarning := false }
  else if tlsConfigured then
    { mode := HttpServeMode.tlsServe, httpsDisabledWarning := false }
  else
    { mode := HttpServeMode.plainServe,
      httpsDisabledWarning := decide (iface = ServeInterface.public) }

/-- Observable trace of one `serve` task (handler.go 321–408):
whether the TLS context was constructed (and hence
`GetOrCreateTLSCertificate` invoked, handler.go 337–341), the result of
listener resolution, and — when a listener was obtained — the dispatch. -/
structure ServeTrace where
  tlsContextBuilt : Bool
  listener : Except ResolveError Listener
  dispatch : Option DispatchResult

/-- Embedding of the body of `serve`: the TLS context is built from
`TLS(ctx, iface).Enabled()` before and independently of listener resolution;
resolution failure returns the error before any dispatch; otherwise the
dispatch runs with the constructed TLS context. -/
def serveRun (tlsEnabled : Bool) (zitified : Bool) (zitiService : String)
    (iface : ServeInterface) (address : String) (permission : Option UnixPermission) :
    ServeTrace :=
  let tlsContextBuilt := tlsEnabled
  match resolveListener zitified zitiService iface address permission with
  | Except.error e =>
    { tlsContextBuilt := tlsContextBuilt, listener := Except.error e, dispatch := none }
  | Except.ok l =>
    { tlsContextBuilt := tlsContextBuilt, listener := Except.ok l,
      dispatch := some (serveDispatch address tlsEnabled iface) }

/-- Evaluates a predicate under the option: true when the dispatch is absent
or the present dispatch serves the raw listener. -/
def dispatchModeIsRaw : Option DispatchResult → Bool
  | none => true
  | some dr => decide (dr.mode = HttpServeMode.rawServe)

/-! ## Run functions and the serve coordinator -/

/-- Embedding of `isDSNAllowed` (handler.go 87–91): the guard calls
`Logger().Fatalf` exactly when the configured DSN is the placeholder
`"memory"`; modelled as returning that fatality condition. -/
def isDSNAllowedFatal (dsn : String) : Bool := dsn == "memory"

/-- Observable trace of one run function: whether the DSN guard fired
fatally, which interfaces were handed to spawned `serve` tasks (in spawn
order), and the size of the `sync.WaitGroup` completion counter. -/
structure RunTrace where
  dsnFatal : Bool
  spawned : List ServeInterface
  waitCount : Nat
deriving DecidableEq, Repr

/-- Embedding of `RunServeAdmin` (handler.go 93–124): the DSN guard runs
first (`Fatalf` terminates the process, so nothing is spawned); otherwise one
serve task is spawned for the admin interface and the wait group counts 1. -/
def RunServeAdmin (dsn : String) : RunTrace :=
  if isDSNAllowedFatal dsn then
    { dsnFatal := true, spawned := [], waitCount := 0 }
  else
    { dsnFatal := false, spawned := [ServeInterface.admin], waitCount := 1 }

/-- Embedding of `RunServePublic` (handler.go 126–157). -/
def RunServePublic (dsn : String) : RunTrace :=
  if isDSNAllowedFatal dsn then
    { dsnFatal := true, spawned := [], waitCount := 0 }
  else
    { dsnFatal := false, spawned := [ServeInterface.public], waitCount := 1 }

/-- Embedding of `RunServeAll` (handler.go 159–202): no DSN guard; the wait
group is sized with `wg.Add(2)` and two serve tasks are spawned, public then
admin. -/
def RunServeAll (dsn : String) : RunTrace :=
  { dsnFatal := false,
    spawned := [ServeInterface.public, ServeInterface.admin], waitCount := 2 }

/-- Events of a coordinator execution: a spawned serve task reaching its
terminal state (its deferred `wg.Done()`), or the coordinator returning from
`wg.Wait()` to its caller. -/
inductive Event where
  | taskDone (iface : ServeInterface)
  | coordReturn
deriving DecidableEq, Repr

/-- Whether an event is a task-completion signal. -/
def isDoneEvent : Event → Bool
  | Event.taskDone _ => true
  | Event.coordReturn => false

/-- Number of occurrences of an event in a trace. -/
def countEvent (e : Event) (l : List Event) : Nat :=
  (l.filter (fun x => decide (x = e))).length

/-- Number of task-completion signals in a trace. -/
def donesIn (l : List Event) : Nat := (l.filter isDoneEvent).length

/-- Semantics of `wg.Wait()` with counter `c`: scanning the trace while
counting completed tasks, every coordinator return must find at least `c`
completions already signalled. -/
def waitRespected (c : Nat) : Nat → List Event → Bool
  | _, [] => true
  | dones, Event.taskDone _ :: rest => waitRespected c (dones + 1) rest
  | dones, Event.coordReturn :: rest => decide (c ≤ dones) && waitRespected c dones rest

/-- A trace is a valid execution of a run function when every spawned task
signals completion exactly once (each `serve` runs `defer wg.Done()` once)
and the counting wait is respected. -/
def CoordValidTrace (rt : RunTrace) (tr : List Event) : Prop :=
  (∀ i ∈ rt.spawned, countEvent (Event.taskDone i) tr = 1) ∧
  waitRespected rt.waitCount 0 tr = true

instance (rt : RunTrace) (tr : List Event) : Decidable (CoordValidTrace rt tr) :=
  inferInstanceAs (Decidable (_ ∧ _))

/-! ## Spec-side definitions, stated from the words of the specification, to be
compared with the embeddings above -/

/-- The pipeline order the spec asserts for a non-unix-socket interface
(spec §3 Pipeline invariant and §4.2): the security gate outermost, then the
service-locator middlewares in registration order, then the access log, then
the metrics collector, then the terminal router — written here for the admin
interface as built by the run functions. -/
def specClaimedAdminOrder (disableHealthAccessLog : Bool) (sl : List String)
    (address : String) : Prop :=
  composedAdminPipeline disableHealthAccessLog sl address =
    Middleware.rejectInsecureRequests ::
      (sl.map Middleware.serviceLocator ++
        [setupAdminLogger disableHealthAccessLog, Middleware.metricsCollector,
          Middleware.router])

/-- The transport-consistency property the spec asserts of listener
resolution (spec §8, first bullet), read as three shape implications:
filesystem path implies unix socket, tunnel flag on Admin implies overlay
tunnel, anything else implies TCP. -/
def specListenerShapeConsistent (zitified : Bool) (zitiService : String)
    (iface : ServeInterface) (address : String)
    (permission : Option UnixPermission) : Prop :=
  ∀ l, resolveListener zitified zitiService iface address permission = Except.ok l →
    (AddressIsUnixSocket address = true → l.isUnixSocket = true) ∧
    ((zitified = true ∧ iface = ServeInterface.admin) → l.isZiti = true) ∧
    ((AddressIsUnixSocket address = false ∧
        ¬(zitified = true ∧ iface = ServeInterface.admin)) → l.isTcp = true)

/-! ## Helper lemmas -/

theorem key_admin_iff (iface : ServeInterface) :
    (ServeInterface.Key iface ("prefix") == "serve.admin.prefix") =
      decide (iface = ServeInterface.admin) := by
  cases iface <;> decide

theorem resolveListener_eq (zitified : Bool) (zitiService : String)
    (iface : ServeInterface) (address : String) (permission : Option UnixPermission) :
    resolveListener zitified zitiService iface address permission =
      if zitified = true ∧ iface = ServeInterface.admin then
        (if zitiService = "" then
          Except.error (ResolveError.configurationError zitiServiceMissingMsg)
        else Except.ok (Listener.ziti zitiService 5 3))
      else Except.ok (MakeListener address permission) := by
  cases zitified with
  | false => simp [resolveListener]
  | true =>
    cases iface with
    | admin =>
      by_cases hz : zitiService = "" <;>
        simp [resolveListener, key_admin_iff, beq_iff_eq, hz]
    | public => simp [resolveListener, key_admin_iff]

theorem any_isGateStage_map (sl : List String) :
    (sl.map Middleware.serviceLocator).any isGateStage = false := by
  induction sl with
  | nil => rfl
  | cons a t ih => simp [List.any_cons, ih, isGateStage]

theorem any_isCorsStage_map (sl : List String) :
    (sl.map Middleware.serviceLocator).any isCorsStage = false := by
  induction sl with
  | nil => rfl
  | cons a t ih => simp [List.any_cons, ih, isCorsStage]

theorem countEvent_append (e : Event) (l1 l2 : List Event) :
    countEvent e (l1 ++ l2) = countEvent e l1 + countEvent e l2 := by
  simp [countEvent, List.filter_append]

theorem countEvent_pos_mem (e : Event) (l : List Event)
    (h : 0 < countEvent e l) : e ∈ l := by
  induction l with
  | nil => simp [countEvent] at h
  | cons a t ih =>
    by_cases ha : a = e
    · exact ha ▸ List.mem_cons_self a t
    · have hc : countEvent e (a :: t) = countEvent e t := by
        simp [countEvent, List.filter_cons, ha]
      rw [hc] at h
      exact List.mem_cons_of_mem a (ih h)

theorem donesIn_split (l : List Event) :
    donesIn l = countEvent (Event.taskDone ServeInterface.public) l +
      countEvent (Event.taskDone ServeInterface.admin) l := by
  induction l with
  | nil => rfl
  | cons a t ih =>
    cases a with
    | taskDone i =>
      cases i <;>
        simp [donesIn, countEvent, List.filter_cons, isDoneEvent] at ih ⊢ <;>
        omega
    | coordReturn =>
      simp [donesIn, countEvent, List.filter_cons, isDoneEvent] at ih ⊢
      omega

theorem waitRespected_le (c : Nat) (pre post : List Event) :
    ∀ d, waitRespected c d (pre ++ Event.coordReturn :: post) = true →
      c ≤ d + donesIn pre := by
  induction pre with
  | nil =>
    intro d h
    simp only [List.nil_append, waitRespected, Bool.and_eq_true,
      decide_eq_true_eq] at h
    simpa [donesIn] using h.1
  | cons a t ih =>
    intro d h
    cases a with
    | taskDone i =>
      simp only [List.cons_append, waitRespected] at h
      have hle := ih (d + 1) h
      simp [donesIn, List.filter_cons, isDoneEvent] at hle ⊢
      omega
    | coordReturn =>
      simp only [List.cons_append, waitRespected, Bool.and_eq_true,
        decide_eq_true_eq] at h
      have hle := ih d h.2
      simp [donesIn, List.filter_cons, isDoneEvent] at hle ⊢
      omega

/-! ## Claim theorems -/

/-- C1 counterexample: on the admin interface with the non-unix address
`:4445` and one service-locator middleware, the composed pipeline is not in
the spec-claimed order with the security gate outermost — `setup` installed
the access-log, Prometheus and metrics middlewares before `EnhanceMiddleware`
appends the gate. -/
theorem gate_outermost_counterexample :
    ¬ specClaimedAdminOrder false ["custom"] (":4445") := by
  unfold specClaimedAdminOrder
  decide

/-- C1 (amended): for every interface whose listen address is not a unix
socket, the composed pipeline is, in order: access-log middleware, Prometheus
manager, metrics collector (all installed by `setup`), then the
reject-insecure-request security gate, then the service-locator middlewares
in registration order, then the terminal router. The security gate is
therefore present but it is not the outermost wrapper: the setup-installed
middlewares run before it. -/
theorem pipeline_order_nonunix (adminHealthOff publicHealthOff : Bool)
    (sl : List String) (address : String)
    (h : AddressIsUnixSocket address = false) :
    composedAdminPipeline adminHealthOff sl address =
      setupAdminMw adminHealthOff ++ [Middleware.rejectInsecureRequests] ++
        sl.map Middleware.serviceLocator ++ [Middleware.router] ∧
    composedPublicPipeline publicHealthOff sl address =
      setupPublicMw publicHealthOff ++ [Middleware.rejectInsecureRequests] ++
        sl.map Middleware.serviceLocator ++ [Middleware.router] := by
  constructor <;>
    simp [composedAdminPipeline, composedPublicPipeline, EnhanceMiddleware, h]

/-- C1 witness: the amended pipeline order evaluated on the TCP address
`:4445` with one service-locator middleware. -/
theorem pipeline_order_nonunix_witness :
    AddressIsUnixSocket (":4445") = false ∧
    (composedAdminPipeline false ["custom"] (":4445") =
      setupAdminMw false ++ [Middleware.rejectInsecureRequests] ++
        ["custom"].map Middleware.serviceLocator ++ [Middleware.router] ∧
    composedPublicPipeline false ["custom"] (":4445") =
      setupPublicMw false ++ [Middleware.rejectInsecureRequests] ++
        ["custom"].map Middleware.serviceLocator ++ [Middleware.router]) :=
  ⟨by decide, pipeline_order_nonunix false false ["custom"] (":4445") (by decide)⟩

/-- C2 counterexample: with the tunnel flag set on the admin interface, the
tunnel-service name set, and a filesystem-socket listen address, resolution
returns the overlay-tunnel listener, not a unix-socket listener — the
zitified branch takes priority over the address shape, so the implication
claimed by the spec (filesystem path implies unix socket) fails. -/
theorem listener_shape_counterexample :
    ¬ specListenerShapeConsistent true ("svc-x") ServeInterface.admin
      ("unix:/tmp/admin.sock") none := by
  intro h
  have h2 := h (Listener.ziti ("svc-x") 5 3) rfl
  exact absurd (h2.1 (by decide)) (by decide)

/-- C2 (amended): listener resolution never selects a transport inconsistent
with its inputs, with the tunnel branch taking priority over the address
shape: if the tunnel-mode flag is set and the interface is Admin, every
successfully resolved listener is the overlay-tunnel listener (with the
5-minute connect timeout and connection bound 3); in every other case —
including the Public interface with the tunnel flag set — a filesystem-path
address yields a unix-socket listener and any other address a TCP listener. -/
theorem resolveListener_mode_consistent (zitified : Bool) (zitiService : String)
    (iface : ServeInterface) (address : String) (permission : Option UnixPermission)
    (l : Listener)
    (h : resolveListener zitified zitiService iface address permission = Except.ok l) :
    ((zitified = true ∧ iface = ServeInterface.admin) →
      l = Listener.ziti zitiService 5 3) ∧
    (¬(zitified = true ∧ iface = ServeInterface.admin) →
      (AddressIsUnixSocket address = true →
        l = Listener.unixSocket (stripUnixScheme address) permission) ∧
      (AddressIsUnixSocket address = false → l = Listener.tcp address)) := by
  rw [resolveListener_eq] at h
  by_cases hz : zitified = true ∧ iface = ServeInterface.admin
  · rw [if_pos hz] at h
    by_cases he : zitiService = ""
    · rw [if_pos he] at h
      exact absurd h (by simp)
    · rw [if_neg he] at h
      exact ⟨fun _ => (Except.ok.inj h).symm, fun hn => absurd hz hn⟩
  · rw [if_neg hz] at h
    have hl : l = MakeListener address permission := (Except.ok.inj h).symm
    refine ⟨fun hzz => absurd hzz hz, fun _ => ⟨fun hu => ?_, fun hu => ?_⟩⟩
    · rw [hl]; simp [MakeListener, hu]
    · rw [hl]; simp [MakeListener, hu]

/-- C2 witness: the amended consistency evaluated on the public interface
with the tunnel flag set and a TCP address — the tunnel branch is not taken
and a TCP listener is bound. -/
theorem resolveListener_mode_consistent_witness :
    resolveListener true ("svc-x") ServeInterface.public (":4444") none =
      Except.ok (Listener.tcp (":4444")) ∧
    (((true = true ∧ ServeInterface.public = ServeInterface.admin) →
      Listener.tcp (":4444") = Listener.ziti ("svc-x") 5 3) ∧
    (¬(true = true ∧ ServeInterface.public = ServeInterface.admin) →
      (AddressIsUnixSocket (":4444") = true →
        Listener.tcp (":4444") = Listener.unixSocket (stripUnixScheme (":4444")) none) ∧
      (AddressIsUnixSocket (":4444") = false →
        Listener.tcp (":4444") = Listener.tcp (":4444")))) :=
  ⟨rfl, resolveListener_mode_consistent true ("svc-x") ServeInterface.public
    (":4444") none (Listener.tcp (":4444")) rfl⟩

/-- C3 (confirmed): the dispatch in `serve` selects exactly one of three
serve modes — raw listener serve exactly when the address is a unix socket,
TLS-wrapped serve exactly when the address is not a unix socket and a TLS
context was constructed, plain serve exactly otherwise — and the warning
that HTTPS termination is expected upstream is emitted exactly in the
plain-serve case on the public interface. -/
theorem serveDispatch_three_modes (address : String) (tlsConfigured : Bool)
    (iface : ServeInterface) :
    (decide ((serveDispatch address tlsConfigured iface).mode = HttpServeMode.rawServe) =
      AddressIsUnixSocket address) ∧
    (decide ((serveDispatch address tlsConfigured iface).mode = HttpServeMode.tlsServe) =
      (!AddressIsUnixSocket address && tlsConfigured)) ∧
    (decide ((serveDispatch address tlsConfigured iface).mode = HttpServeMode.plainServe) =
      (!AddressIsUnixSocket address && !tlsConfigured)) ∧
    ((serveDispatch address tlsConfigured iface).httpsDisabledWarning =
      ((!AddressIsUnixSocket address && !tlsConfigured) &&
        decide (iface = ServeInterface.public))) := by
  cases hu : AddressIsUnixSocket address <;> cases tlsConfigured <;> cases iface <;>
    simp [serveDispatch, hu]

/-- C4 (confirmed): the reject-insecure-request gate is present in the
composed pipeline (admin and public alike) precisely when the listen address
is not a filesystem (unix) socket. -/
theorem gate_present_iff_not_unix (disableHealthAccessLog : Bool)
    (sl : List String) (address : String) :
    ((composedAdminPipeline disableHealthAccessLog sl address).any isGateStage =
      !AddressIsUnixSocket address) ∧
    ((composedPublicPipeline disableHealthAccessLog sl address).any isGateStage =
      !AddressIsUnixSocket address) := by
  cases hu : AddressIsUnixSocket address <;>
    constructor <;>
      simp [composedAdminPipeline, composedPublicPipeline, EnhanceMiddleware,
        setupAdminMw, setupPublicMw, setupAdminLogger, setupPublicLogger, hu,
        List.any_append, any_isGateStage_map, isGateStage]

/-- C5 (code bug): the composed pipeline contains no CORS stage at all, for
either interface, any address and any service-locator middlewares.
`EnhanceMiddleware` constructs the contextualized CORS middleware but the
bare call on handler.go 80–82 discards its result and does not receive the
negroni, so nothing is ever attached — contradicting the statement in the
spec that a per-request CORS decision stage is part of the pipeline. -/
theorem pipeline_has_no_cors_stage (disableHealthAccessLog : Bool)
    (sl : List String) (address : String) :
    ((composedAdminPipeline disableHealthAccessLog sl address).any isCorsStage =
      false) ∧
    ((composedPublicPipeline disableHealthAccessLog sl address).any isCorsStage =
      false) := by
  cases hu : AddressIsUnixSocket address <;>
    constructor <;>
      simp [composedAdminPipeline, composedPublicPipeline, EnhanceMiddleware,
        setupAdminMw, setupPublicMw, setupAdminLogger, setupPublicLogger, hu,
        List.any_append, any_isCorsStage_map, isCorsStage]

/-- C6 (confirmed): with the tunnel flag set on the admin interface and the
tunnel-service environment variable unset (empty), listener resolution fails
with the configuration error before any listener is created, and the error
message names the unset `ZITI_SERVICE` variable. -/
theorem ziti_service_unset_config_error (address : String)
    (permission : Option UnixPermission) :
    resolveListener true ("") ServeInterface.admin address permission =
      Except.error (ResolveError.configurationError zitiServiceMissingMsg) ∧
    List.IsInfix (("ZITI_SERVICE").data) zitiServiceMissingMsg.data :=
  ⟨rfl, ⟨("Zitified flag set, but ").data,
    (" environment variable not found").data, by decide⟩⟩

/-- C7 (confirmed): the data-source guard is fatal exactly when the DSN is
the placeholder `"memory"` in the standalone admin-only and public-only run
modes, and is never triggered when both interfaces are served. -/
theorem dsn_guard_standalone_only (dsn : String) :
    ((RunServeAdmin dsn).dsnFatal = (dsn == "memory")) ∧
    ((RunServePublic dsn).dsnFatal = (dsn == "memory")) ∧
    ((RunServeAll dsn).dsnFatal = false) := by
  cases h : (dsn == "memory") <;>
    simp [RunServeAdmin, RunServePublic, RunServeAll, isDSNAllowedFatal, h]

/-- C8 (confirmed): serving both interfaces spawns exactly two tasks, one
public and one admin, the wait-group counter is sized to two, and in every
valid coordinator execution the coordinator returns from its wait only after
both tasks have signalled termination. -/
theorem runServeAll_coordinator (dsn : String) :
    (RunServeAll dsn).spawned = [ServeInterface.public, ServeInterface.admin] ∧
    (RunServeAll dsn).spawned.length = 2 ∧
    (RunServeAll dsn).waitCount = 2 ∧
    (∀ tr pre post, CoordValidTrace (RunServeAll dsn) tr →
      tr = pre ++ Event.coordReturn :: post →
      Event.taskDone ServeInterface.public ∈ pre ∧
      Event.taskDone ServeInterface.admin ∈ pre) := by
  refine ⟨rfl, rfl, rfl, ?_⟩
  intro tr pre post hvalid htr
  obtain ⟨hcount, hwait⟩ := hvalid
  have hpub : countEvent (Event.taskDone ServeInterface.public) tr = 1 :=
    hcount ServeInterface.public (by simp [RunServeAll])
  have hadm : countEvent (Event.taskDone ServeInterface.admin) tr = 1 :=
    hcount ServeInterface.admin (by simp [RunServeAll])
  subst htr
  have hw2 : waitRespected 2 0 (pre ++ Event.coordReturn :: post) = true := hwait
  have hge : 2 ≤ donesIn pre := by
    simpa using waitRespected_le 2 pre post 0 hw2
  have hpa := countEvent_append (Event.taskDone ServeInterface.public) pre
    (Event.coordReturn :: post)
  have haa := countEvent_append (Event.taskDone ServeInterface.admin) pre
    (Event.coordReturn :: post)
  have hsplit := donesIn_split pre
  exact ⟨countEvent_pos_mem _ _ (by omega), countEvent_pos_mem _ _ (by omega)⟩

/-- C8 witness: the trace in which both tasks terminate and then the
coordinator returns is valid, and both completions precede the return. -/
theorem runServeAll_coordinator_witness :
    CoordValidTrace (RunServeAll ("postgres"))
      [Event.taskDone ServeInterface.public, Event.taskDone ServeInterface.admin,
        Event.coordReturn] ∧
    (Event.taskDone ServeInterface.public ∈
        [Event.taskDone ServeInterface.public, Event.taskDone ServeInterface.admin] ∧
      Event.taskDone ServeInterface.admin ∈
        [Event.taskDone ServeInterface.public, Event.taskDone ServeInterface.admin]) :=
  ⟨by decide, (runServeAll_coordinator ("postgres")).2.2.2
    [Event.taskDone ServeInterface.public, Event.taskDone ServeInterface.admin,
      Event.coordReturn]
    [Event.taskDone ServeInterface.public, Event.taskDone ServeInterface.admin]
    [] (by decide) rfl⟩

/-- C9 (confirmed): the `enableCORS` parameter of `EnhanceMiddleware` has no
effect on the returned pipeline — for any fixed remaining inputs, composing
with `true` (as the admin path does) and with `false` (as the public path
does) yields identical pipelines. -/
theorem enableCORS_has_no_effect (sl : List String) (n : Pipeline)
    (address : String) (routerHandler : Middleware) (iface : ServeInterface) :
    EnhanceMiddleware sl n address routerHandler true iface =
      EnhanceMiddleware sl n address routerHandler false iface := rfl

/-- C10 (confirmed): when TLS is enabled for an interface whose listen
address is a filesystem (unix) socket, the serve task still constructs the
TLS context (invoking certificate acquisition), but every dispatch that is
reached serves the raw listener: the unix-socket branch takes priority over
the TLS branch, so the TLS context is never used. -/
theorem tls_built_but_unused_on_unix (zitified : Bool) (zitiService : String)
    (iface : ServeInterface) (address : String) (permission : Option UnixPermission)
    (h : AddressIsUnixSocket address = true) :
    (serveRun true zitified zitiService iface address permission).tlsContextBuilt =
      true ∧
    dispatchModeIsRaw
      (serveRun true zitified zitiService iface address permission).dispatch =
      true := by
  cases hr : resolveListener zitified zitiService iface address permission <;>
    simp [serveRun, hr, dispatchModeIsRaw, serveDispatch, h]

/-- C10 witness: TLS enabled on the admin interface listening on a unix
socket — the TLS context is built and the dispatch serves the raw listener. -/
theorem tls_built_but_unused_on_unix_witness :
    AddressIsUnixSocket ("unix:/var/run/hydra.sock") = true ∧
    ((serveRun true false ("") ServeInterface.admin ("unix:/var/run/hydra.sock")
        none).tlsContextBuilt = true ∧
      dispatchModeIsRaw (serveRun true false ("") ServeInterface.admin
        ("unix:/var/run/hydra.sock") none).dispatch = true) :=
  ⟨by decide, tls_built_but_unused_on_unix false ("") ServeInterface.admin
    ("unix:/var/run/hydra.sock") none (by decide)⟩

end NfHydra
